import Mathlib

/-!
Verification development for `scripts/export_supabase_data.py` (raw-table
Supabase export pipeline).

The script is shallowly embedded: pandas DataFrames become lists of
structured rows; column presence (resolved by the script's case-insensitive
`find_column` helper) is carried as a list of column-name strings per table;
nullable cells become `Option` values; the filesystem side effects become an
explicit trace of operations in the run output.  Machine floats do not occur
on the verified paths (durations are summed, never divided, in raw-table
mode), so durations are modelled as integers.
-/

namespace ExportScript

/-- Environment variables read by the script (lines 8-11).  `none` models an
unset variable. -/
structure Env where
  SUPABASE_URL : Option String
  SUPABASE_KEY : Option String
  COMPANY_NAME : Option String
  TARGET_PROJECTS : Option String
deriving DecidableEq

/-- Response of the Company lookup (line 55): the returned `id` values, plus
whether the response rows carry an `id` column at all (line 57 checks both
emptiness and column presence). -/
structure CompanyResp where
  ids : List Int
  hasIdCol : Bool
deriving DecidableEq

/-- One fetched TimeEntry row.  `duration` is `none` when the cell is null or
non-numeric (the script coerces such cells with `pd.to_numeric(...,
errors="coerce")`); `startTime`/`endTime` are minutes-since-epoch instants. -/
structure TimeRow where
  projectId : Int
  userId : Int
  duration : Option Int
  entry_date : Option String
  startTime : Option Int
  endTime : Option Int
deriving DecidableEq

structure TimeTable where
  cols : List String
  rows : List TimeRow
deriving DecidableEq

/-- One fetched Project row. -/
structure ProjRow where
  id : Int
  title : String
deriving DecidableEq

structure ProjTable where
  cols : List String
  rows : List ProjRow
deriving DecidableEq

/-- One fetched User row; name/email cells are nullable. -/
structure UserRow where
  id : Int
  firstName : Option String
  lastName : Option String
  email : Option String
deriving DecidableEq

structure UsersTable where
  cols : List String
  rows : List UserRow
deriving DecidableEq

/-- The backend's responses to the four fetches the script performs.  The
script absorbs HTTP/transport errors into empty tables (`fetch_data`,
lines 21-50), so an empty table models both "no rows" and "failed call". -/
structure Database where
  company : CompanyResp
  timeEntries : TimeTable
  projects : ProjTable
  users : UsersTable
deriving DecidableEq

/-- Python's `str.split(",")` on the character list: splitting the empty
string yields one empty field, exactly as in Python. -/
def splitCommaChars : List Char → List (List Char)
  | [] => [[]]
  | c :: cs =>
    match splitCommaChars cs with
    | [] => [[c]]
    | g :: gs => if c == ',' then [] :: g :: gs else (c :: g) :: gs

/-- Python's `str.split(",")`. -/
def splitComma (s : String) : List String :=
  (splitCommaChars s.data).map String.mk

/-- Python's `str.lower()`, character by character. -/
def lowerStr (s : String) : String :=
  String.mk (s.data.map Char.toLower)

/-- Python's `str.strip()`: whitespace removed from both ends. -/
def stripStr (s : String) : String :=
  String.mk (((s.data.dropWhile Char.isWhitespace).reverse.dropWhile
    Char.isWhitespace).reverse)

/-- Code-point-lexicographic strict order on strings, as Python compares
strings (and as pandas orders string cells in min/max aggregates). -/
def ltChars : List Char → List Char → Bool
  | [], [] => false
  | [], _ :: _ => true
  | _ :: _, [] => false
  | a :: as, b :: bs => if a < b then true else if b < a then false else ltChars as bs

def ltStr (s t : String) : Bool := ltChars s.data t.data

/-- Case-insensitive column-alias resolution (lines 106-111): for each
candidate name in order, return the first actual column whose lowercasing
matches the candidate's lowercasing. -/
def find_column (cols : List String) (possible_names : List String) : Option String :=
  possible_names.findSome? fun name => cols.find? fun c => lowerStr c == lowerStr name

def project_id_col (db : Database) : Option String :=
  find_column db.projects.cols ["id"]

def project_title_col (db : Database) : Option String :=
  find_column db.projects.cols ["title"]

def user_id_col (db : Database) : Option String :=
  find_column db.users.cols ["id"]

def user_first_name_col (db : Database) : Option String :=
  find_column db.users.cols ["firstName"]

def user_last_name_col (db : Database) : Option String :=
  find_column db.users.cols ["lastName"]

def user_email_col (db : Database) : Option String :=
  find_column db.users.cols ["email"]

def time_project_id_col (db : Database) : Option String :=
  find_column db.timeEntries.cols ["projectId"]

def time_user_id_col (db : Database) : Option String :=
  find_column db.timeEntries.cols ["userId"]

def time_duration_col (db : Database) : Option String :=
  find_column db.timeEntries.cols ["duration"]

def time_entry_date_col (db : Database) : Option String :=
  find_column db.timeEntries.cols ["entryDate", "created_at"]

/-- Effective company name (line 10): the `COMPANY_NAME` variable with its
documented default. -/
def company_name (env : Env) : String :=
  env.COMPANY_NAME.getD "Timesheet App (Production)"

/-- `TARGET_PROJECTS` split on commas (line 11).  Splitting the empty string
yields `[""]`, exactly as Python's `"".split(",")` does. -/
def target_projects (env : Env) : List String :=
  splitComma (env.TARGET_PROJECTS.getD "")

/-- Line 135: `if not target_projects or not target_projects[0]` — all
projects are used when the split list is empty or its first element is the
empty string. -/
def useAllProjects (env : Env) : Bool :=
  (target_projects env).isEmpty || ((target_projects env).headD "") == ""

/-- Lines 134-142: the project table restricted to the requested titles
(`isin(target_projects)`), or the whole table when no targets are given. -/
def projectsFiltered (env : Env) (db : Database) : List ProjRow :=
  if useAllProjects env then db.projects.rows
  else db.projects.rows.filter fun p => (target_projects env).contains p.title

/-- A row of the joined table: a time entry paired with its matching project
title and user fields. -/
structure MergedRow where
  projectId : Int
  userId : Int
  duration : Option Int
  entry_date : Option String
  startTime : Option Int
  endTime : Option Int
  title : String
  firstName : Option String
  lastName : Option String
  email : Option String
deriving DecidableEq

/-- First inner join (lines 154-159): time entries to filtered projects on
the project foreign key. -/
def merged_tp (env : Env) (db : Database) : List (TimeRow × ProjRow) :=
  db.timeEntries.rows.flatMap fun t =>
    ((projectsFiltered env db).filter fun p => p.id == t.projectId).map fun p => (t, p)

/-- Second inner join (lines 167-172): the result joined to users on the
user foreign key. -/
def merged_df (env : Env) (db : Database) : List MergedRow :=
  (merged_tp env db).flatMap fun tp =>
    (db.users.rows.filter fun u => u.id == tp.1.userId).map fun u =>
      { projectId := tp.1.projectId, userId := tp.1.userId,
        duration := tp.1.duration, entry_date := tp.1.entry_date,
        startTime := tp.1.startTime, endTime := tp.1.endTime,
        title := tp.2.title, firstName := u.firstName,
        lastName := u.lastName, email := u.email }

/-- A joined row after the derived columns `user_name` (lines 183-189) and
`duration_minutes` (lines 192-206) are added. -/
structure EnrichedRow where
  title : String
  user_name : Option String
  email : Option String
  duration_minutes : Option Int
  entry_date : Option String
deriving DecidableEq

/-- Lines 183-206: derive `user_name` and `duration_minutes` for one joined
row, from the user-table and time-table column lists.
`user_name`: first+last concatenation (nulls filled with "", then stripped)
when both name columns exist; otherwise the raw email cell when the email
column exists; otherwise the literal "Unknown User".
`duration_minutes`: the duration cell coerced to a number with nulls filled
by 0 when a duration column exists; otherwise end minus start (null when
either instant is null) when both timestamp columns exist; otherwise 0. -/
def enrichRow (ucols tcols : List String) (m : MergedRow) : EnrichedRow :=
  let fcol := find_column ucols ["firstName"]
  let lcol := find_column ucols ["lastName"]
  let ecol := find_column ucols ["email"]
  let dcol := find_column tcols ["duration"]
  let scol := find_column tcols ["startTime"]
  let encol := find_column tcols ["endTime"]
  { title := m.title
    user_name :=
      if fcol.isSome && lcol.isSome then
        some (stripStr (m.firstName.getD "" ++ " " ++ m.lastName.getD ""))
      else if ecol.isSome then m.email
      else some "Unknown User"
    email := m.email
    duration_minutes :=
      if dcol.isSome then some (m.duration.getD 0)
      else if scol.isSome && encol.isSome then
        match m.startTime, m.endTime with
        | some s, some e => some (e - s)
        | _, _ => none
      else some 0
    entry_date := m.entry_date }

/-- The joined table with derived columns, as fed to the group-by. -/
def enriched (env : Env) (db : Database) : List EnrichedRow :=
  (merged_df env db).map (enrichRow db.users.cols db.timeEntries.cols)

def hasEmailCol (db : Database) : Bool := (user_email_col db).isSome

def hasDateCol (db : Database) : Bool := (time_entry_date_col db).isSome

/-- A group key of the group-by at line 220: project title, derived user
name, and — when the email column exists — the raw email cell. -/
abbrev GroupKey := String × String × Option String

/-- The group key of one joined row, or `none` when any key component is
null — pandas `groupby` silently drops rows whose key contains a null
(its default `dropna=True`). -/
def groupKey? (hasEmail : Bool) (r : EnrichedRow) : Option GroupKey :=
  match r.user_name with
  | none => none
  | some n =>
    if hasEmail then
      match r.email with
      | none => none
      | some e => some (r.title, n, some e)
    else some (r.title, n, none)

/-- One row of the published report (columns of line 296, after the renames
of lines 235-249 and the fills of lines 255-258).  `none` models a null
cell. -/
structure ReportRow where
  project : Option String
  user_name : Option String
  user_email : Option String
  total_duration_raw : Option Int
  total_hours : Option Int
  total_entries : Option Nat
  first_entry_date : Option String
  last_entry_date : Option String
deriving DecidableEq

/-- Least element of a list of date strings (pandas `min` aggregate, which
skips nulls; `none` when every cell was null). -/
def minStr? (l : List String) : Option String :=
  l.foldl (fun acc s =>
    match acc with
    | none => some s
    | some t => some (if ltStr s t then s else t)) none

/-- Greatest element of a list of date strings (pandas `max` aggregate). -/
def maxStr? (l : List String) : Option String :=
  l.foldl (fun acc s =>
    match acc with
    | none => some s
    | some t => some (if ltStr t s then s else t)) none

/-- The aggregated report row of one group (lines 213-258): sum and count of
`duration_minutes` (pandas sums skip nulls and `count` counts only non-null
cells), min/max of the entry date when a date column exists, the rename to
the published schema, the `total_hours` duplicate of `total_duration_raw`
(line 252), and the defaults filled for absent optional columns
(lines 255-258). -/
def aggRow (hasEmail hasDate : Bool) (rows : List EnrichedRow) (k : GroupKey) : ReportRow :=
  let g := rows.filter fun r => groupKey? hasEmail r == some k
  let durs := g.filterMap fun r => r.duration_minutes
  let dates := g.filterMap fun r => r.entry_date
  { project := some k.1
    user_name := some k.2.1
    user_email := if hasEmail then k.2.2 else some ""
    total_duration_raw := some durs.sum
    total_hours := some durs.sum
    total_entries := some (g.countP fun r => r.duration_minutes.isSome)
    first_entry_date := if hasDate then minStr? dates else some ""
    last_entry_date := if hasDate then maxStr? dates else some "" }

/-- The group-by of line 220: one aggregated row per distinct non-null group
key.  (pandas additionally sorts the groups by key; the order is irrelevant
here because every consumer of `grouped` re-filters and re-sorts.) -/
def groupedRows (hasEmail hasDate : Bool) (rows : List EnrichedRow) : List ReportRow :=
  ((rows.filterMap (groupKey? hasEmail)).dedup).map (aggRow hasEmail hasDate rows)

/-- The grouped, renamed, filled table (`grouped` after line 258). -/
def grouped (env : Env) (db : Database) : List ReportRow :=
  groupedRows (hasEmailCol db) (hasDateCol db) (enriched env db)

def DEPT_TITLE : String := "Department of Health (Government of Western Australia)"

def COERCO_TITLE : String := "Coerco"

def SEPARATOR_TITLE : String := "--- SEPARATOR ---"

/-- Sort key of line 265: the `total_hours` cell (always non-null on grouped
rows). -/
def sortKey (r : ReportRow) : Int := r.total_hours.getD 0

/-- Insert a row into a list kept in non-increasing `sortKey` order. -/
def insertDesc (r : ReportRow) : List ReportRow → List ReportRow
  | [] => [r]
  | x :: xs => if sortKey x ≤ sortKey r then r :: x :: xs else x :: insertDesc r xs

/-- `sort_values("total_hours", ascending=False)` (lines 265-266): a sort
into non-increasing `total_hours` order. -/
def sortByHoursDesc : List ReportRow → List ReportRow
  | [] => []
  | x :: xs => insertDesc x (sortByHoursDesc xs)

/-- Line 261-265: the Department of Health group, sorted by hours. -/
def deptBlock (env : Env) (db : Database) : List ReportRow :=
  sortByHoursDesc ((grouped env db).filter fun g => g.project == some DEPT_TITLE)

/-- Line 262-266: the Coerco group, sorted by hours. -/
def coercoBlock (env : Env) (db : Database) : List ReportRow :=
  sortByHoursDesc ((grouped env db).filter fun g => g.project == some COERCO_TITLE)

/-- The separator row of lines 276-285: the sentinel literal in `project`,
empty strings for the name/email fields, nulls everywhere else. -/
def separator_row : ReportRow :=
  { project := some SEPARATOR_TITLE
    user_name := some ""
    user_email := some ""
    total_duration_raw := none
    total_hours := none
    total_entries := none
    first_entry_date := none
    last_entry_date := none }

/-- Lines 269-293: Department of Health rows, then the separator row
(appended unconditionally at line 286), then Coerco rows. -/
def final_rows (env : Env) (db : Database) : List ReportRow :=
  deptBlock env db ++ separator_row :: coercoBlock env db

/-- The `export_summary.json` contents (lines 304-310); the wall-clock
`export_date` field is not modelled. -/
structure RunSummary where
  company_id : Int
  total_rows : Nat
  dept_health_users : Nat
  coerco_users : Nat
deriving DecidableEq

/-- A filesystem operation the process could perform under `exports/`. -/
inductive FsOp where
  | mkdirExports : FsOp
  | writeFile : String → FsOp
deriving DecidableEq

/-- Observable outcome of one run: exit code, the error artifact's content
(if written), the CSV rows (if written), the summary (if written), and the
ordered trace of filesystem operations performed. -/
structure RunOutput where
  exitCode : Nat
  errorTxt : Option String
  csv : Option (List ReportRow)
  summary : Option RunSummary
  fsTrace : List FsOp
deriving DecidableEq

/-- Outcome of the uncaught `KeyError` raised by `os.environ[...]` at
lines 8-9, before the `try` block is entered: the interpreter exits with
status 1 and nothing is written. -/
def crashNoArtifact : RunOutput :=
  { exitCode := 1, errorTxt := none, csv := none, summary := none, fsTrace := [] }

/-- Outcome of an in-pipeline failure branch: `error.txt` is written with the
message and the process exits 1. -/
def errorExit (msg : String) : RunOutput :=
  { exitCode := 1, errorTxt := some msg, csv := none, summary := none,
    fsTrace := [FsOp.writeFile "exports/error.txt"] }

/-- Outcome of the top-level `except` handler (lines 317-323), reached when
pandas raises (e.g. a `KeyError` for an unresolved key column): `error.txt`
is written with the message and trace, and the process exits 1. -/
def exceptionExit (msg : String) : RunOutput :=
  errorExit ("Error: " ++ msg)

/-- Outcome of a successful run (lines 299-315). -/
def successOut (env : Env) (db : Database) : RunOutput :=
  { exitCode := 0
    errorTxt := none
    csv := some (final_rows env db)
    summary := some
      { company_id := db.company.ids.headD 0
        total_rows := (final_rows env db).length
        dept_health_users := (deptBlock env db).length
        coerco_users := (coercoBlock env db).length }
    fsTrace := [FsOp.writeFile "exports/project_time_report.csv",
                FsOp.writeFile "exports/export_summary.json"] }

/-- The whole script, as a function from environment and backend responses
to the observable outcome.  Branches appear in source order; the guards on
unresolved key columns model the `KeyError` pandas raises at the
corresponding `merge`/indexing call, caught by the top-level handler. -/
def run (env : Env) (db : Database) : RunOutput :=
  if env.SUPABASE_URL.isNone || env.SUPABASE_KEY.isNone then
    crashNoArtifact
  else if db.company.ids.isEmpty || !db.company.hasIdCol then
    errorExit ("Company \x27" ++ company_name env ++ "\x27 not found")
  else if db.timeEntries.rows.isEmpty || db.projects.rows.isEmpty
      || db.users.rows.isEmpty then
    errorExit "One or more required tables are empty"
  else if !useAllProjects env && (project_title_col db).isNone then
    exceptionExit "KeyError: project title column"
  else if (projectsFiltered env db).isEmpty then
    errorExit "Target projects not found"
  else if (project_id_col db).isNone || (project_title_col db).isNone
      || (time_project_id_col db).isNone then
    exceptionExit "KeyError: project merge column"
  else if (user_id_col db).isNone || (time_user_id_col db).isNone then
    exceptionExit "KeyError: user merge column"
  else if (merged_df env db).isEmpty then
    errorExit "No data after merging tables"
  else
    successOut env db

/-- Sum of the `total_entries` cells over a list of report rows (null cells
contribute 0; the only null cells are the separator's). -/
def sumEntries (rows : List ReportRow) : Nat :=
  (rows.map fun r => r.total_entries.getD 0).sum

/-- The data rows of a report: every row except separator rows. -/
def dataRows (rows : List ReportRow) : List ReportRow :=
  rows.filter fun r => r.project != some SEPARATOR_TITLE

/-! Concrete runs used to witness or refute the claims. -/

/-- An environment with the backend URL unset. -/
def envMissingUrl : Env :=
  { SUPABASE_URL := none, SUPABASE_KEY := some "key",
    COMPANY_NAME := none, TARGET_PROJECTS := none }

/-- A backend whose every fetch returns nothing. -/
def dbEmpty : Database :=
  { company := { ids := [], hasIdCol := false },
    timeEntries := { cols := [], rows := [] },
    projects := { cols := [], rows := [] },
    users := { cols := [], rows := [] } }

/-- An environment targeting a single project named Alpha. -/
def envAlpha : Env :=
  { SUPABASE_URL := some "https://x.supabase.co", SUPABASE_KEY := some "key",
    COMPANY_NAME := none, TARGET_PROJECTS := some "Alpha" }

/-- A backend with one Alpha project, one user and one time entry. -/
def dbAlpha : Database :=
  { company := { ids := [7], hasIdCol := true },
    timeEntries :=
      { cols := ["id", "projectId", "userId", "duration", "entryDate"],
        rows := [{ projectId := 1, userId := 10, duration := some 30,
                   entry_date := some "2024-01-02", startTime := none, endTime := none }] },
    projects := { cols := ["id", "title"], rows := [{ id := 1, title := "Alpha" }] },
    users := { cols := ["id", "firstName", "lastName", "email"],
               rows := [{ id := 10, firstName := some "Jo", lastName := some "Doe",
                          email := some "jo@example.com" }] } }

/-- An environment targeting the two named projects of the fixed sort. -/
def envBoth : Env :=
  { SUPABASE_URL := some "https://x.supabase.co", SUPABASE_KEY := some "key",
    COMPANY_NAME := none,
    TARGET_PROJECTS :=
      some "Department of Health (Government of Western Australia),Coerco" }

/-- A backend with both named projects, two users and four time entries. -/
def dbBoth : Database :=
  { company := { ids := [7], hasIdCol := true },
    timeEntries :=
      { cols := ["id", "projectId", "userId", "duration", "entryDate"],
        rows :=
          [{ projectId := 1, userId := 10, duration := some 30,
             entry_date := some "2024-01-02", startTime := none, endTime := none },
           { projectId := 1, userId := 10, duration := some 20,
             entry_date := some "2024-01-03", startTime := none, endTime := none },
           { projectId := 1, userId := 11, duration := some 5,
             entry_date := some "2024-01-01", startTime := none, endTime := none },
           { projectId := 2, userId := 11, duration := some 45,
             entry_date := some "2024-01-04", startTime := none, endTime := none }] },
    projects :=
      { cols := ["id", "title"],
        rows := [{ id := 1, title := DEPT_TITLE }, { id := 2, title := COERCO_TITLE }] },
    users :=
      { cols := ["id", "firstName", "lastName", "email"],
        rows := [{ id := 10, firstName := some "Jo", lastName := some "Doe",
                   email := some "jo@example.com" },
                 { id := 11, firstName := some "Al", lastName := some "Po",
                   email := some "al@example.com" }] } }

/-- An environment naming a company the backend does not know. -/
def envAcme : Env :=
  { SUPABASE_URL := some "https://x.supabase.co", SUPABASE_KEY := some "key",
    COMPANY_NAME := some "Acme Pty", TARGET_PROJECTS := none }

/-- A users-table column list lacking the name columns but holding email. -/
def ucolsNoNames : List String := ["id", "email"]

/-- A time-table column list with a duration column. -/
def tcolsPlain : List String := ["id", "projectId", "userId", "duration"]

/-- A joined row whose user has only an email on file. -/
def mEmailOnly : MergedRow :=
  { projectId := 1, userId := 10, duration := some 30, entry_date := none,
    startTime := none, endTime := none, title := "Alpha",
    firstName := none, lastName := none, email := some "person@example.com" }

/-- An enriched row with a non-null email. -/
def erJo : EnrichedRow :=
  { title := "Coerco", user_name := some "Jo Doe", email := some "jo@example.com",
    duration_minutes := some 30, entry_date := none }

/-- Another enriched row with a non-null email. -/
def erAl : EnrichedRow :=
  { title := "Coerco", user_name := some "Al Po", email := some "al@example.com",
    duration_minutes := some 20, entry_date := none }

/-- An enriched row whose email cell is null. -/
def erNullEmail : EnrichedRow :=
  { title := "Coerco", user_name := some "Zed Null", email := none,
    duration_minutes := some 10, entry_date := none }

/-! Helper lemmas. -/

theorem insertDesc_perm (r : ReportRow) (l : List ReportRow) :
    (insertDesc r l).Perm (r :: l) := by
  induction l with
  | nil => simp [insertDesc]
  | cons x xs ih =>
    simp only [insertDesc]
    split
    · exact List.Perm.refl _
    · exact (List.Perm.cons x ih).trans (List.Perm.swap r x xs)

theorem sortByHoursDesc_perm (l : List ReportRow) : (sortByHoursDesc l).Perm l := by
  induction l with
  | nil => simp [sortByHoursDesc]
  | cons x xs ih => exact (insertDesc_perm x (sortByHoursDesc xs)).trans (ih.cons x)

theorem mem_sortByHoursDesc {r : ReportRow} {l : List ReportRow}
    (h : r ∈ sortByHoursDesc l) : r ∈ l :=
  (sortByHoursDesc_perm l).mem_iff.mp h

theorem chain_insertDesc (r : ReportRow) (l : List ReportRow)
    (h : List.Chain' (fun a b => sortKey b ≤ sortKey a) l) :
    List.Chain' (fun a b => sortKey b ≤ sortKey a) (insertDesc r l) := by
  induction l with
  | nil => simp [insertDesc]
  | cons x xs ih =>
    simp only [insertDesc]
    split
    · rename_i hle
      exact h.cons hle
    · rename_i hgt
      have hrx : sortKey r ≤ sortKey x := le_of_lt (lt_of_not_le hgt)
      have htail : List.Chain' (fun a b => sortKey b ≤ sortKey a) (insertDesc r xs) :=
        ih h.tail
      apply List.chain'_cons'.mpr
      refine ⟨?_, htail⟩
      intro y hy
      cases xs with
      | nil =>
        simp [insertDesc] at hy
        simpa [hy] using hrx
      | cons z zs =>
        simp only [insertDesc] at hy
        split at hy
        · simp at hy
          simpa [hy] using hrx
        · simp at hy
          have hxz : sortKey z ≤ sortKey x := (List.chain'_cons.mp h).1
          simpa [hy] using hxz

theorem sortByHoursDesc_sorted (l : List ReportRow) :
    List.Chain' (fun a b => sortKey b ≤ sortKey a) (sortByHoursDesc l) := by
  induction l with
  | nil => simp [sortByHoursDesc]
  | cons x xs ih => exact chain_insertDesc x (sortByHoursDesc xs) ih

theorem countP_congr_mem {α : Type} (l : List α) (p q : α → Bool)
    (h : ∀ x ∈ l, p x = q x) : l.countP p = l.countP q := by
  induction l with
  | nil => simp
  | cons a l ih =>
    simp only [List.countP_cons]
    rw [ih fun x hx => h x (List.mem_cons_of_mem a hx),
      h a (List.mem_cons_self a l)]

theorem countP_or_disjoint {α : Type} (l : List α) (p q : α → Bool)
    (h : ∀ x ∈ l, ¬(p x = true ∧ q x = true)) :
    l.countP (fun x => p x || q x) = l.countP p + l.countP q := by
  induction l with
  | nil => simp
  | cons a l ih =>
    simp only [List.countP_cons]
    rw [ih fun x hx => h x (List.mem_cons_of_mem a hx)]
    have ha := h a (List.mem_cons_self a l)
    cases hp : p a <;> cases hq : q a <;> simp [hp, hq] at ha ⊢ <;> omega

theorem sum_counts_over_keys (he : Bool) (rows : List EnrichedRow)
    (d : EnrichedRow → Bool) (ks : List GroupKey) (hnd : ks.Nodup) :
    (ks.map fun k => (rows.filter fun r => groupKey? he r == some k).countP d).sum
      = rows.countP fun r => (ks.any fun k => groupKey? he r == some k) && d r := by
  induction ks with
  | nil => simp
  | cons k ks ih =>
    obtain ⟨hk, hnd2⟩ := List.nodup_cons.mp hnd
    simp only [List.map_cons, List.sum_cons]
    rw [ih hnd2, List.countP_filter]
    have hdisj : ∀ r ∈ rows,
        ¬((d r && (groupKey? he r == some k)) = true ∧
          ((ks.any fun k2 => groupKey? he r == some k2) && d r) = true) := by
      intro r _ ⟨h1, h2⟩
      have hk1 : groupKey? he r = some k := by
        have := (Bool.and_eq_true _ _).mp h1
        exact eq_of_beq this.2
      have hk2 : ∃ k2 ∈ ks, groupKey? he r == some k2 :=
        List.any_eq_true.mp ((Bool.and_eq_true _ _).mp h2).1
      obtain ⟨k2, hk2mem, hk2eq⟩ := hk2
      have : k = k2 := by
        have := eq_of_beq hk2eq
        rw [hk1] at this
        exact Option.some.inj this
      exact hk (this ▸ hk2mem)
    rw [← countP_or_disjoint rows _ _ hdisj]
    apply countP_congr_mem
    intro r _
    cases hd : d r <;> cases hb : (groupKey? he r == some k) <;>
      cases hany : (ks.any fun k2 => groupKey? he r == some k2) <;>
        simp [hd, hb, hany]

theorem sumEntries_grouped_filter (he hd : Bool) (rows : List EnrichedRow) (T : String) :
    sumEntries ((groupedRows he hd rows).filter fun g => g.project == some T)
      = rows.countP fun r =>
          ((groupKey? he r).any fun k => k.1 == T) && r.duration_minutes.isSome := by
  unfold sumEntries groupedRows
  rw [List.filter_map, List.map_map]
  have hfe : ((rows.filterMap (groupKey? he)).dedup.filter
        ((fun g : ReportRow => g.project == some T) ∘ aggRow he hd rows))
      = (rows.filterMap (groupKey? he)).dedup.filter fun k => k.1 == T := by
    apply List.filter_congr
    intro k _
    rfl
  rw [hfe]
  rw [show ((fun r : ReportRow => r.total_entries.getD 0) ∘ aggRow he hd rows)
      = fun k => (rows.filter fun r => groupKey? he r == some k).countP
          (fun r => r.duration_minutes.isSome) from funext fun k => rfl]
  rw [sum_counts_over_keys he rows _ _ ((List.nodup_dedup _).filter _)]
  apply countP_congr_mem
  intro r hr
  cases hkey : groupKey? he r with
  | none => simp [hkey]
  | some k0 =>
    simp only [hkey, Option.any_some]
    congr 1
    cases hT : (k0.1 == T) with
    | false =>
      apply List.any_eq_false.mpr
      intro k hkmem
      have hkT : (k.1 == T) = true := (List.mem_filter.mp hkmem).2
      intro hcontra
      have hk0k : k0 = k := Option.some.inj (eq_of_beq hcontra)
      rw [← hk0k] at hkT
      rw [hkT] at hT
      exact Bool.noConfusion hT
    | true =>
      apply List.any_eq_true.mpr
      refine ⟨k0, List.mem_filter.mpr
        ⟨List.mem_dedup.mpr (List.mem_filterMap.mpr ⟨r, hr, hkey⟩), hT⟩, by simp⟩

theorem mem_block_project {l : List ReportRow} {T : String} {r : ReportRow}
    (h : r ∈ sortByHoursDesc (l.filter fun g => g.project == some T)) :
    r.project = some T :=
  eq_of_beq (List.mem_filter.mp (mem_sortByHoursDesc h)).2

theorem run_csv_inv {env : Env} {db : Database} {rows : List ReportRow}
    (h : (run env db).csv = some rows) : rows = final_rows env db := by
  unfold run at h
  repeat' split at h
  all_goals
    first
      | simp [crashNoArtifact, errorExit, exceptionExit] at h
      | (simp only [successOut, Option.some.injEq] at h; exact h.symm)

theorem run_summary_inv {env : Env} {db : Database} {s : RunSummary}
    (h : (run env db).summary = some s) :
    s = { company_id := db.company.ids.headD 0,
          total_rows := (final_rows env db).length,
          dept_health_users := (deptBlock env db).length,
          coerco_users := (coercoBlock env db).length } := by
  unfold run at h
  repeat' split at h
  all_goals
    first
      | simp [crashNoArtifact, errorExit, exceptionExit] at h
      | (simp only [successOut, Option.some.injEq] at h; exact h.symm)

theorem dataRows_final (env : Env) (db : Database) :
    dataRows (final_rows env db) = deptBlock env db ++ coercoBlock env db := by
  unfold dataRows final_rows
  rw [List.filter_append, List.filter_cons]
  have hsep : (separator_row.project != some SEPARATOR_TITLE) = false := by decide
  rw [hsep]
  simp only [Bool.false_eq_true, if_false]
  congr 1
  · apply List.filter_eq_self.mpr
    intro r hr
    rw [mem_block_project hr]
    decide
  · apply List.filter_eq_self.mpr
    intro r hr
    rw [mem_block_project hr]
    decide

theorem sumEntries_append (a b : List ReportRow) :
    sumEntries (a ++ b) = sumEntries a + sumEntries b := by
  unfold sumEntries
  rw [List.map_append, List.sum_append]

theorem sumEntries_sort (l : List ReportRow) :
    sumEntries (sortByHoursDesc l) = sumEntries l := by
  unfold sumEntries
  exact List.Perm.sum_eq (List.Perm.map _ (sortByHoursDesc_perm l))

/-! Claim theorems. -/

/-- C1, counterexample: with target project "Alpha" the run reaches the
output stage and the joined table has one row, yet the final report (one
separator row, no data rows) carries a `total_entries` sum of zero — the
claimed equality between the `total_entries` sum and the joined row count
fails for target sets outside the two hardcoded project names. -/
theorem c1_counterexample :
    (run envAlpha dbAlpha).csv = some (final_rows envAlpha dbAlpha) ∧
    (merged_df envAlpha dbAlpha).length = 1 ∧
    sumEntries (dataRows (final_rows envAlpha dbAlpha)) = 0 := by
  decide

/-- C1, amended: for every run that reaches the output stage, summing
`total_entries` over the non-separator rows of the final report equals the
number of joined rows whose project title is one of the two hardcoded
project names, whose grouping keys are all non-null, and whose derived
duration cell is non-null; joined rows for any other project, and joined
rows dropped by the group-by for a null grouping key, do not reach the
written CSV. -/
theorem c1_entries_sum (env : Env) (db : Database) (rows : List ReportRow)
    (h : (run env db).csv = some rows) :
    sumEntries (dataRows rows)
      = (enriched env db).countP fun r =>
          ((groupKey? (hasEmailCol db) r).any fun k =>
              k.1 == DEPT_TITLE || k.1 == COERCO_TITLE)
            && r.duration_minutes.isSome := by
  rw [run_csv_inv h, dataRows_final, sumEntries_append]
  unfold deptBlock coercoBlock grouped
  rw [sumEntries_sort, sumEntries_sort,
    sumEntries_grouped_filter, sumEntries_grouped_filter]
  have hdisj : ∀ x ∈ enriched env db,
      ¬((((groupKey? (hasEmailCol db) x).any fun k => k.1 == DEPT_TITLE)
            && x.duration_minutes.isSome) = true ∧
        (((groupKey? (hasEmailCol db) x).any fun k => k.1 == COERCO_TITLE)
            && x.duration_minutes.isSome) = true) := by
    intro x _ ⟨h1, h2⟩
    have h1a := ((Bool.and_eq_true _ _).mp h1).1
    have h2a := ((Bool.and_eq_true _ _).mp h2).1
    cases hkey : groupKey? (hasEmailCol db) x with
    | none => rw [hkey] at h1a; simp at h1a
    | some k0 =>
      rw [hkey, Option.any_some] at h1a h2a
      have e1 : k0.1 = DEPT_TITLE := eq_of_beq h1a
      have e2 : k0.1 = COERCO_TITLE := eq_of_beq h2a
      rw [e1] at e2
      exact absurd e2 (by decide)
  rw [← countP_or_disjoint _ _ _ hdisj]
  apply countP_congr_mem
  intro r _
  cases hkey : groupKey? (hasEmailCol db) r with
  | none => simp [hkey]
  | some k0 =>
    simp only [hkey, Option.any_some]
    cases k0.1 == DEPT_TITLE <;> cases k0.1 == COERCO_TITLE <;>
      cases r.duration_minutes.isSome <;> simp

/-- C1, witness: on a run covering both named projects the amended equality
evaluates on both sides to 4. -/
theorem c1_witness :
    (run envBoth dbBoth).csv = some (final_rows envBoth dbBoth) ∧
    sumEntries (dataRows (final_rows envBoth dbBoth))
      = (enriched envBoth dbBoth).countP fun r =>
          ((groupKey? (hasEmailCol dbBoth) r).any fun k =>
              k.1 == DEPT_TITLE || k.1 == COERCO_TITLE)
            && r.duration_minutes.isSome :=
  ⟨by decide, c1_entries_sum envBoth dbBoth (final_rows envBoth dbBoth) (by decide)⟩

/-- C2, counterexample: on a run whose joined data belongs to neither named
project, both groups are empty and yet the final report consists of exactly
the separator row — the separator is appended unconditionally (line 286),
refuting "a separator appears only when both groups are non-empty". -/
theorem c2_counterexample :
    (run envAlpha dbAlpha).csv = some [separator_row] ∧
    deptBlock envAlpha dbAlpha = [] ∧ coercoBlock envAlpha dbAlpha = [] := by
  decide

/-- C2, amended: a separator row appears in every final report, exactly
once, regardless of whether the two named-project groups are empty. -/
theorem c2_separator_unconditional (env : Env) (db : Database)
    (rows : List ReportRow) (h : (run env db).csv = some rows) :
    ∃ l1 l2, rows = l1 ++ separator_row :: l2 ∧
      separator_row ∉ l1 ∧ separator_row ∉ l2 := by
  refine ⟨deptBlock env db, coercoBlock env db, run_csv_inv h, ?_, ?_⟩
  · intro hmem
    have hp := mem_block_project hmem
    exact absurd hp (by decide)
  · intro hmem
    have hp := mem_block_project hmem
    exact absurd hp (by decide)

/-- C2, witness: on the two-project run the separator row occurs exactly
once between the two blocks. -/
theorem c2_witness :
    (run envBoth dbBoth).csv = some (final_rows envBoth dbBoth) ∧
    ∃ l1 l2, final_rows envBoth dbBoth = l1 ++ separator_row :: l2 ∧
      separator_row ∉ l1 ∧ separator_row ∉ l2 :=
  ⟨by decide, c2_separator_unconditional envBoth dbBoth _ (by decide)⟩

/-- C3, counterexample: with the backend URL unset the process exits with
status 1 but writes nothing — no `error.txt` exists, refuting "a persisted
error artifact is written before exiting". -/
theorem c3_counterexample :
    (run envMissingUrl dbEmpty).exitCode = 1 ∧
    (run envMissingUrl dbEmpty).errorTxt = none ∧
    (run envMissingUrl dbEmpty).fsTrace = [] := by
  decide

/-- C3, amended: when the backend URL or key is absent the process exits
with a non-zero status, but no error artifact is written — the environment
read at lines 8-9 raises before the `try` block that would write one. -/
theorem c3_missing_config (env : Env) (db : Database)
    (h : env.SUPABASE_URL = none ∨ env.SUPABASE_KEY = none) :
    (run env db).exitCode = 1 ∧ (run env db).errorTxt = none ∧
      (run env db).fsTrace = [] := by
  have hb : (env.SUPABASE_URL.isNone || env.SUPABASE_KEY.isNone) = true := by
    cases h with
    | inl h => simp [h]
    | inr h => simp [h]
  simp [run, hb, crashNoArtifact]

/-- C3, witness: the amended behaviour at a concrete environment lacking
the backend URL. -/
theorem c3_witness :
    (envMissingUrl.SUPABASE_URL = none ∨ envMissingUrl.SUPABASE_KEY = none) ∧
    ((run envMissingUrl dbEmpty).exitCode = 1 ∧
     (run envMissingUrl dbEmpty).errorTxt = none ∧
     (run envMissingUrl dbEmpty).fsTrace = []) :=
  ⟨Or.inl rfl, c3_missing_config envMissingUrl dbEmpty (Or.inl rfl)⟩

theorem hours_eq_raw_of_mem_grouped {he hd : Bool} {rows : List EnrichedRow}
    {r : ReportRow} (h : r ∈ groupedRows he hd rows) :
    r.total_hours = r.total_duration_raw := by
  obtain ⟨k, _, hk⟩ := List.mem_map.mp h
  rw [← hk]
  rfl

/-- C4: in every row of the written report — data rows and the separator
alike — `total_hours` equals `total_duration_raw` exactly: line 252 copies
the raw sum without dividing by 60, and the separator holds null in both. -/
theorem c4_hours_eq_raw (env : Env) (db : Database) (rows : List ReportRow)
    (h : (run env db).csv = some rows) :
    ∀ r ∈ rows, r.total_hours = r.total_duration_raw := by
  intro r hr
  rw [run_csv_inv h] at hr
  unfold final_rows at hr
  rcases List.mem_append.mp hr with hdept | hrest
  · exact hours_eq_raw_of_mem_grouped
      (List.mem_of_mem_filter (mem_sortByHoursDesc hdept))
  · rcases List.mem_cons.mp hrest with hsep | hco
    · rw [hsep]
      rfl
    · exact hours_eq_raw_of_mem_grouped
        (List.mem_of_mem_filter (mem_sortByHoursDesc hco))

/-- C4, witness: the equality on the four rows of the two-project run. -/
theorem c4_witness :
    (run envBoth dbBoth).csv = some (final_rows envBoth dbBoth) ∧
    ∀ r ∈ final_rows envBoth dbBoth, r.total_hours = r.total_duration_raw :=
  ⟨by decide, c4_hours_eq_raw envBoth dbBoth _ (by decide)⟩

/-- C5, counterexample: on a concrete failing run the process writes
`error.txt` while its filesystem trace contains no directory creation at
all — no `exports/` directory is created before the write, refuting the
claim that the program creates the output directory first. -/
theorem c5_counterexample :
    (run envAcme dbEmpty).fsTrace = [FsOp.writeFile "exports/error.txt"] ∧
    FsOp.mkdirExports ∉ (run envAcme dbEmpty).fsTrace := by
  decide

/-- C5, amended: the program never creates the exports directory on any
run — every artifact write assumes the directory already exists (the script
contains no `makedirs` call). -/
theorem c5_no_mkdir (env : Env) (db : Database) :
    FsOp.mkdirExports ∉ (run env db).fsTrace := by
  unfold run
  repeat' split
  all_goals simp [crashNoArtifact, errorExit, exceptionExit, successOut]

/-- C6: when the company lookup returns no rows or no `id` column (and the
configuration itself is present), the run exits 1, writes an `error.txt`
whose content contains the requested company name, and writes no CSV. -/
theorem c6_company_not_found (env : Env) (db : Database)
    (hu : env.SUPABASE_URL.isSome = true) (hk : env.SUPABASE_KEY.isSome = true)
    (hc : db.company.ids = [] ∨ db.company.hasIdCol = false) :
    (run env db).exitCode = 1 ∧
    (∃ pre post, (run env db).errorTxt = some (pre ++ company_name env ++ post)) ∧
    (run env db).csv = none ∧
    FsOp.writeFile "exports/project_time_report.csv" ∉ (run env db).fsTrace := by
  have h1 : (env.SUPABASE_URL.isNone || env.SUPABASE_KEY.isNone) = false := by
    cases hu' : env.SUPABASE_URL <;> cases hk' : env.SUPABASE_KEY <;>
      simp_all
  have h2 : (db.company.ids.isEmpty || !db.company.hasIdCol) = true := by
    cases hc with
    | inl h => simp [h]
    | inr h => simp [h]
  have hrun : run env db
      = errorExit ("Company \x27" ++ company_name env ++ "\x27 not found") := by
    unfold run
    rw [h1, h2]
    simp
  rw [hrun]
  refine ⟨rfl, ⟨"Company \x27", "\x27 not found", rfl⟩, rfl, ?_⟩
  simp [errorExit]

/-- C6, witness: the unknown-company run exits 1 with an artifact naming
"Acme Pty" and no CSV. -/
theorem c6_witness :
    envAcme.SUPABASE_URL.isSome = true ∧ envAcme.SUPABASE_KEY.isSome = true ∧
    (dbEmpty.company.ids = [] ∨ dbEmpty.company.hasIdCol = false) ∧
    ((run envAcme dbEmpty).exitCode = 1 ∧
     (∃ pre post,
        (run envAcme dbEmpty).errorTxt = some (pre ++ company_name envAcme ++ post)) ∧
     (run envAcme dbEmpty).csv = none ∧
     FsOp.writeFile "exports/project_time_report.csv" ∉ (run envAcme dbEmpty).fsTrace) :=
  ⟨rfl, rfl, Or.inl rfl,
    c6_company_not_found envAcme dbEmpty rfl rfl (Or.inl rfl)⟩

/-- C7: when the users table lacks both name columns but has an email
column, the derived `user_name` equals the row's email cell (even a null
one); the literal "Unknown User" is reserved for the email column being
absent as well. -/
theorem c7_email_fallback (ucols tcols : List String) (m : MergedRow)
    (h1 : find_column ucols ["firstName"] = none)
    (h2 : find_column ucols ["lastName"] = none)
    (h3 : (find_column ucols ["email"]).isSome = true) :
    (enrichRow ucols tcols m).user_name = m.email := by
  unfold enrichRow
  simp [h1, h2, h3]

/-- C7, witness: the fallback at a concrete users table with only id and
email columns. -/
theorem c7_witness :
    find_column ucolsNoNames ["firstName"] = none ∧
    find_column ucolsNoNames ["lastName"] = none ∧
    (find_column ucolsNoNames ["email"]).isSome = true ∧
    (enrichRow ucolsNoNames tcolsPlain mEmailOnly).user_name = mEmailOnly.email :=
  ⟨by decide, by decide, by decide,
    c7_email_fallback ucolsNoNames tcolsPlain mEmailOnly
      (by decide) (by decide) (by decide)⟩

theorem filter_final_dept (env : Env) (db : Database) :
    (final_rows env db).filter (fun r => r.project == some DEPT_TITLE)
      = deptBlock env db := by
  unfold final_rows
  rw [List.filter_append, List.filter_cons]
  have h1 : (separator_row.project == some DEPT_TITLE) = false := by decide
  rw [h1]
  have h2 : (coercoBlock env db).filter (fun r => r.project == some DEPT_TITLE)
      = [] := by
    rw [List.filter_eq_nil_iff]
    intro r hr
    rw [mem_block_project hr]
    decide
  have h3 : (deptBlock env db).filter (fun r => r.project == some DEPT_TITLE)
      = deptBlock env db := by
    apply List.filter_eq_self.mpr
    intro r hr
    rw [mem_block_project hr]
    decide
  simp [h2, h3]

theorem filter_final_coerco (env : Env) (db : Database) :
    (final_rows env db).filter (fun r => r.project == some COERCO_TITLE)
      = coercoBlock env db := by
  unfold final_rows
  rw [List.filter_append, List.filter_cons]
  have h1 : (separator_row.project == some COERCO_TITLE) = false := by decide
  rw [h1]
  have h2 : (deptBlock env db).filter (fun r => r.project == some COERCO_TITLE)
      = [] := by
    rw [List.filter_eq_nil_iff]
    intro r hr
    rw [mem_block_project hr]
    decide
  have h3 : (coercoBlock env db).filter (fun r => r.project == some COERCO_TITLE)
      = coercoBlock env db := by
    apply List.filter_eq_self.mpr
    intro r hr
    rw [mem_block_project hr]
    decide
  simp [h2, h3]

/-- C8: within each named-project group of the final report, `total_hours`
is non-increasing from each row to the next. -/
theorem c8_blocks_sorted (env : Env) (db : Database) (rows : List ReportRow)
    (h : (run env db).csv = some rows) :
    List.Chain' (fun a b => sortKey b ≤ sortKey a)
      (rows.filter fun r => r.project == some DEPT_TITLE) ∧
    List.Chain' (fun a b => sortKey b ≤ sortKey a)
      (rows.filter fun r => r.project == some COERCO_TITLE) := by
  rw [run_csv_inv h, filter_final_dept, filter_final_coerco]
  exact ⟨sortByHoursDesc_sorted _, sortByHoursDesc_sorted _⟩

/-- C8, witness: sortedness of the two blocks on the two-project run. -/
theorem c8_witness :
    (run envBoth dbBoth).csv = some (final_rows envBoth dbBoth) ∧
    (List.Chain' (fun a b => sortKey b ≤ sortKey a)
      ((final_rows envBoth dbBoth).filter fun r => r.project == some DEPT_TITLE) ∧
     List.Chain' (fun a b => sortKey b ≤ sortKey a)
      ((final_rows envBoth dbBoth).filter fun r => r.project == some COERCO_TITLE)) :=
  ⟨by decide, c8_blocks_sorted envBoth dbBoth _ (by decide)⟩

/-- C9: in every written summary, `total_rows` equals
`dept_health_users + coerco_users + 1` — the unconditional separator row is
counted in `total_rows` although it is not data. -/
theorem c9_total_rows (env : Env) (db : Database) (s : RunSummary)
    (h : (run env db).summary = some s) :
    s.total_rows = s.dept_health_users + s.coerco_users + 1 := by
  rw [run_summary_inv h]
  unfold final_rows
  simp only [List.length_append, List.length_cons]
  omega

/-- C9, witness: the two-project run's summary is 4 = 2 + 1 + 1. -/
theorem c9_witness :
    (run envBoth dbBoth).summary
      = some { company_id := 7, total_rows := 4,
               dept_health_users := 2, coerco_users := 1 } ∧
    (4 : Nat) = 2 + 1 + 1 :=
  ⟨by decide,
    c9_total_rows envBoth dbBoth
      { company_id := 7, total_rows := 4, dept_health_users := 2, coerco_users := 1 }
      (by decide)⟩

/-- C10: when the email column exists, a joined row whose email cell is
null contributes to no group: removing it from the group-by input leaves
the grouped table unchanged, so such time entries are absent from the
report entirely (pandas `groupby` drops null grouping keys). -/
theorem c10_null_email_dropped (hd : Bool) (l1 l2 : List EnrichedRow)
    (r : EnrichedRow) (h : r.email = none) :
    groupedRows true hd (l1 ++ r :: l2) = groupedRows true hd (l1 ++ l2) := by
  have hkey : groupKey? true r = none := by
    unfold groupKey?
    cases hn : r.user_name with
    | none => rfl
    | some n => simp [h]
  unfold groupedRows
  have hkeys : (l1 ++ r :: l2).filterMap (groupKey? true)
      = (l1 ++ l2).filterMap (groupKey? true) := by
    rw [List.filterMap_append, List.filterMap_append,
      List.filterMap_cons, hkey]
  rw [hkeys]
  have hagg : aggRow true hd (l1 ++ r :: l2) = aggRow true hd (l1 ++ l2) := by
    funext k
    unfold aggRow
    have hfilt : (l1 ++ r :: l2).filter (fun x => groupKey? true x == some k)
        = (l1 ++ l2).filter (fun x => groupKey? true x == some k) := by
      rw [List.filter_append, List.filter_append, List.filter_cons, hkey]
      simp
    rw [hfilt]
  rw [hagg]

/-- C10, witness: dropping a concrete null-email row between two rows with
emails leaves the grouped table unchanged. -/
theorem c10_witness :
    erNullEmail.email = none ∧
    groupedRows true false ([erJo] ++ erNullEmail :: [erAl])
      = groupedRows true false ([erJo] ++ [erAl]) :=
  ⟨rfl, c10_null_email_dropped false [erJo] [erAl] erNullEmail rfl⟩

end ExportScript
